import Mathlib

/-!
# Verification of the Autonomous AI Tutor Orchestrator core pipeline

Shallow embedding of the planning-and-dispatch pipeline from
`orchestrator_graph.py`, `tools.py` and `context.py`.

Strings are modelled as `List Char`.  Python values flowing through the
orchestrator state (JSON-decoded model output, tool arguments, tool
outputs) are modelled by the inductive type `JVal`.  Python string
operations (`str.lower`, `\d`, `\w`) are modelled with their ASCII
semantics, which coincide with Python's on the ASCII messages the system
processes.  JSON numbers are modelled as integers (the orchestrator's
schemas only use integer and string fields).  Exceptions are modelled
with `Except` / explicit outcome constructors; the text of exceptions
raised by third-party libraries is abstracted, while message strings
literally present in the source are reproduced.
-/

set_option maxRecDepth 10000

/-- ASCII lowering, modelling Python `str.lower` on ASCII text. -/
def pyLowerChar (c : Char) : Char := c.toLower

/-- Python `str.lower` over a whole string (ASCII semantics). -/
def pyLower (s : List Char) : List Char := s.map pyLowerChar

/-- Membership of `needle` as a contiguous substring of `hay`,
modelling Python's `needle in hay` on strings. -/
def containsSub (needle hay : List Char) : Bool :=
  match hay with
  | [] => needle.isEmpty
  | _ :: t => List.isPrefixOf needle hay || containsSub needle t

/-- Python `any(k in s for k in kws)`. -/
def containsAny (kws : List (List Char)) (s : List Char) : Bool :=
  kws.any (fun k => containsSub k s)

/-- A word character in the regex sense `\w`, ASCII semantics:
letters, digits and underscore. -/
def isWordChar (c : Char) : Bool := c.isAlphanum || c == '_'

/-- Numeric value of an ASCII digit. -/
def digitVal (c : Char) : Nat := c.toNat - '0'.toNat

/-- Whether the boundary after a matched digit group holds: true at end
of string or when the next character is not a word character (`\b`). -/
def boundaryAfter : List Char → Bool
  | [] => true
  | c :: _ => !isWordChar c

/-- Scanner for the leftmost match of the regex `\b(\d{1,2})\b` used by
`rule_based_planner` (`re.search(r"\b(\d{1,2})\b", s)`).  `prev` is the
character preceding the current position (`none` at the start of the
string).  At each position where a word boundary holds and a digit
starts, the greedy group tries two digits, then one, each requiring a
trailing word boundary; otherwise the scan advances one character. -/
def scanTwoDigit : Option Char → List Char → Option Nat
  | _, [] => none
  | prev, c :: rest =>
    if c.isDigit && (match prev with | none => true | some p => !isWordChar p) then
      match rest with
      | c1 :: rest2 =>
        if c1.isDigit then
          if boundaryAfter rest2 then some (digitVal c * 10 + digitVal c1)
          else scanTwoDigit (some c) rest
        else if !isWordChar c1 then some (digitVal c)
        else scanTwoDigit (some c) rest
      | [] => some (digitVal c)
    else scanTwoDigit (some c) rest

/-- Leftmost `\b(\d{1,2})\b` match in a string, as a number
(`int(m.group(1))` in the source), `none` when the regex does not match. -/
def firstTwoDigitInt (s : List Char) : Option Nat := scanTwoDigit none s

/-- JSON-style values, modelling the Python values held in the
orchestrator state: decoded model output, tool argument mappings and
tool outputs.  Objects are association lists in key order. -/
inductive JVal where
  | jnull : JVal
  | jbool : Bool → JVal
  | jnum : Int → JVal
  | jstr : List Char → JVal
  | jarr : List JVal → JVal
  | jobj : List (List Char × JVal) → JVal

/-- Python truthiness of a value: `None`, `False`, `0`, `""`, `[]` and
`\x7b\x7d` are falsy, everything else truthy. -/
def jTruthy : JVal → Bool
  | .jnull => false
  | .jbool b => b
  | .jnum n => n != 0
  | .jstr s => !s.isEmpty
  | .jarr xs => !xs.isEmpty
  | .jobj fs => !fs.isEmpty

/-- Python `a or b`: `a` when truthy, else `b`. -/
def pyOr (a b : JVal) : JVal := if jTruthy a then a else b

/-- Python `d.get(k)` on a mapping: the first value bound to `k`, or
`None` when the key is absent. -/
def dictGet (fields : List (List Char × JVal)) (k : List Char) : JVal :=
  match fields with
  | [] => .jnull
  | (k', v) :: rest => if k' = k then v else dictGet rest k

/-- Python `d.get(k, default)` on a mapping. -/
def dictGetD (fields : List (List Char × JVal)) (k : List Char) (d : JVal) : JVal :=
  match fields with
  | [] => d
  | (k', v) :: rest => if k' = k then v else dictGetD rest k d

/-- The static student context from `context.py` (`MOCK_STUDENT_CONTEXT`). -/
def MOCK_STUDENT_CONTEXT : List (List Char × JVal) :=
  [("last_topic".data, .jstr "Photosynthesis".data),
   ("mastery_score".data, .jnum 4),
   ("preferred_style".data, .jstr "Socratic".data),
   ("subject".data, .jstr "Biology".data)]

/-- `MOCK_STUDENT_CONTEXT.get(key, default)` specialised to the string
values the planner reads. -/
def contextGetStr (k d : List Char) : List Char :=
  match dictGetD MOCK_STUDENT_CONTEXT k (.jstr d) with
  | .jstr s => s
  | _ => d

/-- Result of a planner: the `tool_name` / `tool_args` pair of the dict
returned by `rule_based_planner` (`None` modelled as `none`). -/
structure PlanResult where
  tool_name : Option JVal
  tool_args : Option JVal

/-- Keywords of the note-maker rule. -/
def noteKeywords : List (List Char) :=
  ["note".data, "summary".data, "outline".data, "study".data]

/-- Keywords of the flashcard-generator rule. -/
def flashcardKeywords : List (List Char) :=
  ["flashcard".data, "quiz".data, "practice".data]

/-- Keywords of the concept-explainer rule. -/
def explainKeywords : List (List Char) :=
  ["explain".data, "define".data, "describe".data, "clarify".data]

/-- The rule-based fallback planner from `orchestrator_graph.py`:
first-match-wins keyword classification over the lower-cased message,
with argument defaulting from the static student context. -/
def rule_based_planner (user_input : List Char) : PlanResult :=
  let s := pyLower user_input
  if containsAny noteKeywords s then
    { tool_name := some (.jstr "note_maker".data),
      tool_args := some (.jobj
        [("topic".data, .jstr user_input),
         ("note_taking_style".data, .jstr "structured".data),
         ("subject".data, .jstr (contextGetStr "subject".data "General".data)),
         ("include_examples".data, .jbool true),
         ("include_analogies".data,
            .jbool (containsSub "confuse".data s || containsSub "confused".data s))]) }
  else if containsAny flashcardKeywords s then
    let count : Int := (firstTwoDigitInt s).getD 5
    { tool_name := some (.jstr "flashcard_generator".data),
      tool_args := some (.jobj
        [("topic".data, .jstr user_input),
         ("count".data, .jnum (max 1 (min count 20))),
         ("difficulty".data, .jstr "medium".data),
         ("subject".data, .jstr (contextGetStr "subject".data "General".data))]) }
  else if containsAny explainKeywords s then
    let depth₀ : List Char :=
      if containsSub "simple".data s || containsSub "basic".data s then "basic".data
      else "intermediate".data
    let depth : List Char :=
      if containsSub "advanced".data s || containsSub "detailed".data s then "advanced".data
      else depth₀
    { tool_name := some (.jstr "concept_explainer".data),
      tool_args := some (.jobj
        [("concept_to_explain".data, .jstr user_input),
         ("desired_depth".data, .jstr depth),
         ("current_topic".data, .jstr (contextGetStr "last_topic".data "General".data))]) }
  else
    { tool_name := none, tool_args := none }

/-! ## Model output decoding (planner node, `orchestrator_graph.py` lines 138-204)

The planner node first invokes the model agent, then decodes its output:
if the output is a string it strips markdown code fences, parses the
remainder as JSON and extracts a `(tool name, arguments)` pair; if the
output is a mapping it extracts the pair directly; any failure falls
back to `rule_based_planner`. -/

/-- The backtick character (used by the fence-stripping regex). -/
def backtickChar : Char := '\x60'

/-- Case-insensitive test for the optional `json` language tag of the
fence regex. -/
def isJsonTag (a b c d : Char) : Bool :=
  pyLowerChar a == 'j' && pyLowerChar b == 's' && pyLowerChar c == 'o' && pyLowerChar d == 'n'

/-- One left-to-right pass deleting every occurrence of three backticks
optionally followed by `json` in any letter case, modelling
`re.sub(r"` three backticks `(?:json)?", "", output, flags=re.IGNORECASE)`:
at each position either the pattern matches (greedily taking the tag
when present) and is dropped, or one character is emitted. -/
def subFencesAux : Nat → List Char → List Char
  | 0, s => s
  | _, [] => []
  | fuel + 1, c :: rest =>
    if c == backtickChar then
      match rest with
      | c2 :: c3 :: rest3 =>
        if c2 == backtickChar && c3 == backtickChar then
          match rest3 with
          | a :: b :: c4 :: d :: rest4 =>
            if isJsonTag a b c4 d then subFencesAux fuel rest4 else subFencesAux fuel rest3
          | _ => subFencesAux fuel rest3
        else c :: subFencesAux fuel rest
      | _ => c :: subFencesAux fuel rest
    else c :: subFencesAux fuel rest

/-- The fence-deleting pass at full fuel (each step consumes at least
one character, so `length` steps always complete the scan; the fuel
only keeps the recursion structural). -/
def subFences (s : List Char) : List Char := subFencesAux s.length s

/-- One left-to-right pass deleting every occurrence of three backticks,
modelling `clean_output.replace("` three backticks `", "")`. -/
def removeTripleBackticksAux : Nat → List Char → List Char
  | 0, s => s
  | _, [] => []
  | fuel + 1, c :: rest =>
    if c == backtickChar then
      match rest with
      | c2 :: c3 :: rest3 =>
        if c2 == backtickChar && c3 == backtickChar then removeTripleBackticksAux fuel rest3
        else c :: removeTripleBackticksAux fuel rest
      | _ => c :: removeTripleBackticksAux fuel rest
    else c :: removeTripleBackticksAux fuel rest

/-- The triple-backtick deleting pass at full fuel. -/
def removeTripleBackticks (s : List Char) : List Char :=
  removeTripleBackticksAux s.length s

/-- Python `str.strip` whitespace (ASCII semantics). -/
def isPySpace (c : Char) : Bool :=
  c == ' ' || c == '\t' || c == '\n' || c == '\r' || c == '\x0b' || c == '\x0c'

/-- Python `str.strip`: drop leading and trailing whitespace. -/
def pyStrip (s : List Char) : List Char :=
  ((s.dropWhile isPySpace).reverse.dropWhile isPySpace).reverse

/-! ### A JSON parser modelling `json.loads`

JSON strings support the single-character escapes; the `\u` escape and
floating-point numbers are not modelled — inputs containing them are
treated as parse failures (no claim involves them, and a parse failure
merely routes the turn to the fallback planner). -/

/-- JSON insignificant whitespace. -/
def jsonWs (c : Char) : Bool := c == ' ' || c == '\t' || c == '\n' || c == '\r'

/-- Skip JSON whitespace. -/
def skipWs (s : List Char) : List Char := s.dropWhile jsonWs

/-- Decode a JSON single-character escape: the quote, backslash and
slash stand for themselves, the letters `b f n r t` for the usual
control characters (code points 8, 12, 10, 13, 9). -/
def jsonEscape (c : Char) : Option Char :=
  match c with
  | '"' => some c
  | '\\' => some c
  | '/' => some c
  | 'b' => some (Char.ofNat 8)
  | 'f' => some (Char.ofNat 12)
  | 'n' => some (Char.ofNat 10)
  | 'r' => some (Char.ofNat 13)
  | 't' => some (Char.ofNat 9)
  | _ => none

/-- Parse the body of a JSON string (after the opening quote), returning
the decoded characters and the remaining input after the closing quote. -/
def parseJString : List Char → Option (List Char × List Char)
  | [] => none
  | c :: rest =>
    if c == '"' then some ([], rest)
    else if c == '\\' then
      match rest with
      | e :: rest2 =>
        match jsonEscape e with
        | some ec => (parseJString rest2).map (fun p => (ec :: p.1, p.2))
        | none => none
      | [] => none
    else if c.toNat < 32 then none
    else (parseJString rest).map (fun p => (c :: p.1, p.2))

/-- Split leading ASCII digits from the input. -/
def takeDigits : List Char → (List Char × List Char)
  | [] => ([], [])
  | c :: rest =>
    if c.isDigit then
      let p := takeDigits rest
      (c :: p.1, p.2)
    else ([], c :: rest)

/-- Value of a digit string. -/
def digitsToNat (ds : List Char) : Nat :=
  ds.foldl (fun acc c => acc * 10 + digitVal c) 0

/-- Parse a JSON integer (optional minus sign, no leading zeros); fails
on floating-point forms. -/
def parseJNum (s : List Char) : Option (Int × List Char) :=
  let p : Bool × List Char :=
    match s with
    | c :: rest => if c == '-' then (true, rest) else (false, s)
    | [] => (false, s)
  match takeDigits p.2 with
  | ([], _) => none
  | (ds, r) =>
    if ds.length > 1 && ds.head? == some '0' then none
    else
      let n : Int := if p.1 then -(digitsToNat ds : Int) else (digitsToNat ds : Int)
      match r with
      | c :: _ => if c == '.' || c == 'e' || c == 'E' then none else some (n, r)
      | [] => some (n, r)

/-- Parsing modes: a single value, the inside of an array after `[`, a
mandatory array item list, the inside of an object after the opening
brace, a mandatory member list.  A single fuel-indexed function keeps
the recursion structural so that terms evaluate by kernel reduction. -/
inductive JMode where
  | value
  | arrayRest
  | arrayMust
  | objectRest
  | objectMust

/-- Recursive JSON parser; in array/object modes the returned value is
the `jarr`/`jobj` of the members parsed. -/
def parseJson : Nat → JMode → List Char → Option (JVal × List Char)
  | 0, _, _ => none
  | fuel + 1, .value, s =>
    match skipWs s with
    | [] => none
    | c :: rest =>
      if c == '{' then parseJson fuel .objectRest rest
      else if c == '[' then parseJson fuel .arrayRest rest
      else if c == '"' then (parseJString rest).map (fun p => (.jstr p.1, p.2))
      else if List.isPrefixOf "true".data (c :: rest) then
        some (.jbool true, (c :: rest).drop 4)
      else if List.isPrefixOf "false".data (c :: rest) then
        some (.jbool false, (c :: rest).drop 5)
      else if List.isPrefixOf "null".data (c :: rest) then
        some (.jnull, (c :: rest).drop 4)
      else (parseJNum (c :: rest)).map (fun p => (.jnum p.1, p.2))
  | fuel + 1, .arrayRest, s =>
    match skipWs s with
    | ']' :: rest => some (.jarr [], rest)
    | s' => parseJson fuel .arrayMust s'
  | fuel + 1, .arrayMust, s =>
    match parseJson fuel .value s with
    | none => none
    | some (v, rest) =>
      match skipWs rest with
      | ']' :: rest' => some (.jarr [v], rest')
      | ',' :: rest' =>
        match parseJson fuel .arrayMust rest' with
        | some (.jarr vs, rest'') => some (.jarr (v :: vs), rest'')
        | _ => none
      | _ => none
  | fuel + 1, .objectRest, s =>
    match skipWs s with
    | '}' :: rest => some (.jobj [], rest)
    | s' => parseJson fuel .objectMust s'
  | fuel + 1, .objectMust, s =>
    match skipWs s with
    | '"' :: rest =>
      match parseJString rest with
      | none => none
      | some (k, rest1) =>
        match skipWs rest1 with
        | ':' :: rest2 =>
          match parseJson fuel .value rest2 with
          | none => none
          | some (v, rest3) =>
            match skipWs rest3 with
            | '}' :: rest4 => some (.jobj [(k, v)], rest4)
            | ',' :: rest4 =>
              match parseJson fuel .objectMust rest4 with
              | some (.jobj fs, rest5) => some (.jobj ((k, v) :: fs), rest5)
              | _ => none
            | _ => none
        | _ => none
    | _ => none

/-- `json.loads`: parse a complete JSON document, requiring only
whitespace after the value; `none` models a raised `JSONDecodeError`. -/
def jsonLoads (s : List Char) : Option JVal :=
  match parseJson (2 * s.length + 4) .value s with
  | some (v, rest) => if (skipWs rest).isEmpty then some v else none
  | none => none

/-! ## Orchestrator state and the planner node -/

/-- The status values assigned to `state["status"]` by the pipeline
(string literals in the source; `LLM_ERROR` appears only in the
formatter's membership test and is never assigned). -/
inductive Status where
  | FOUND_TOOL
  | NO_TOOL
  | TOOL_SUCCESS
  | UNKNOWN_TOOL
  | TOOL_ERROR
  | SUCCESS
  | LLM_ERROR
deriving DecidableEq

/-- The `OrchestratorState` TypedDict (`total=False`): every key is
optional, `none` modelling an absent key.  Python code that treats an
absent key and a present `None` value alike (`state.get`) is modelled
accordingly. -/
structure OrchestratorState where
  user_message : List Char
  tool_name : Option JVal := none
  tool_args : Option JVal := none
  tool_output : Option JVal := none
  status : Option Status := none
  final_response : Option (List Char) := none
  llm_raw : Option JVal := none
  fallback_used : Option Bool := none
  error : Option (List Char) := none

/-- Outcome of `_agent_executor.invoke`: either it raises an exception
(message text abstracted) or it returns a result mapping. -/
inductive AgentOutcome where
  | raises (message : List Char)
  | returns (result : List (List Char × JVal))

/-- `output = result.get("output") or result`. -/
def agentOutput (result : List (List Char × JVal)) : JVal :=
  pyOr (dictGet result "output".data) (.jobj result)

/-- The decoding performed inside the planner's `try` block on the
agent output: the string branch (fence stripping, JSON parse, key
extraction guarded by a truthy name) followed by the mapping branch.
`none` models reaching `raise ValueError("LLM failed to produce
structured tool call.")`, including the case where the inner JSON
extraction raised and was swallowed by the inner `except`. -/
def decodeOutput (output : JVal) : Option (JVal × JVal) :=
  match output with
  | .jstr text =>
    let clean := pyStrip (removeTripleBackticks (subFences text))
    match jsonLoads clean with
    | some (.jobj fields) =>
      let name := pyOr (pyOr (dictGet fields "tool_name".data) (dictGet fields "tool".data))
        (dictGet fields "name".data)
      let args := pyOr (pyOr (pyOr (pyOr (dictGet fields "tool_args".data)
        (dictGet fields "args".data)) (dictGet fields "tool_input".data))
        (dictGet fields "parameters".data)) (.jobj [])
      if jTruthy name then some (name, args) else none
    | _ => none
  | .jobj fields =>
    let name := pyOr (dictGet fields "name".data) (dictGet fields "tool_name".data)
    let args := pyOr (pyOr (pyOr (pyOr (dictGet fields "args".data)
      (dictGet fields "tool_args".data)) (dictGet fields "tool_input".data))
      (dictGet fields "parameters".data)) (.jobj [])
    if jTruthy name then some (name, args) else none
  | _ => none

/-- Truthiness of an optional value (`fb.get("tool_name")` check). -/
def optTruthy (o : Option JVal) : Bool :=
  match o with
  | some v => jTruthy v
  | none => false

/-- The `except` branch of the planner node: consult
`rule_based_planner`, record the triggering error and mark the fallback. -/
def plannerFallback (state : OrchestratorState) (err : List Char) : OrchestratorState :=
  let fb := rule_based_planner state.user_message
  { state with
      tool_name := fb.tool_name,
      tool_args := fb.tool_args,
      fallback_used := some true,
      status := some (if optTruthy fb.tool_name then .FOUND_TOOL else .NO_TOOL),
      error := some err }

/-- Message of the `ValueError` raised when the agent produced no
structured tool call. -/
def llmFailureMessage : List Char := "LLM failed to produce structured tool call.".data

/-- The planner node: try the model-backed planner, fall back to the
rule-based planner on any error.  The serialized `llm_raw` echo stores
the result mapping itself (the `str(result)` rendering is abstracted). -/
def planner_node (agent : AgentOutcome) (state : OrchestratorState) : OrchestratorState :=
  let state := { state with fallback_used := some false }
  match agent with
  | .raises e => plannerFallback state e
  | .returns result =>
    let state := { state with llm_raw := some (.jobj result) }
    match decodeOutput (agentOutput result) with
    | some (name, args) =>
      { state with tool_name := some name, tool_args := some args, status := some .FOUND_TOOL }
    | none => plannerFallback state llmFailureMessage

/-! ## The tool registry (`tools.py`)

Each LangChain tool validates its raw argument mapping against its
pydantic input schema and then runs a pure computation.  Validation is
modelled on exactly typed values (string fields take JSON strings,
integer fields JSON integers, boolean fields JSON booleans, enum fields
the declared string values); pydantic's value coercions and the text of
its error messages are abstracted — the in-source `validate_count`
message is reproduced literally.  Unknown extra fields are ignored. -/

inductive NoteStyleEnum where
  | outline
  | bullet_points
  | narrative
  | structured
deriving DecidableEq

/-- String value of a `NoteStyleEnum` member. -/
def NoteStyleEnum.value : NoteStyleEnum → List Char
  | .outline => "outline".data
  | .bullet_points => "bullet_points".data
  | .narrative => "narrative".data
  | .structured => "structured".data

/-- Member of `NoteStyleEnum` with the given string value. -/
def NoteStyleEnum.ofValue (s : List Char) : Option NoteStyleEnum :=
  if s = "outline".data then some .outline
  else if s = "bullet_points".data then some .bullet_points
  else if s = "narrative".data then some .narrative
  else if s = "structured".data then some .structured
  else none

inductive FlashcardDifficultyEnum where
  | easy
  | medium
  | hard
deriving DecidableEq

/-- String value of a `FlashcardDifficultyEnum` member. -/
def FlashcardDifficultyEnum.value : FlashcardDifficultyEnum → List Char
  | .easy => "easy".data
  | .medium => "medium".data
  | .hard => "hard".data

/-- Member of `FlashcardDifficultyEnum` with the given string value. -/
def FlashcardDifficultyEnum.ofValue (s : List Char) : Option FlashcardDifficultyEnum :=
  if s = "easy".data then some .easy
  else if s = "medium".data then some .medium
  else if s = "hard".data then some .hard
  else none

inductive ExplanationDepthEnum where
  | basic
  | intermediate
  | advanced
  | comprehensive
deriving DecidableEq

/-- String value of an `ExplanationDepthEnum` member. -/
def ExplanationDepthEnum.value : ExplanationDepthEnum → List Char
  | .basic => "basic".data
  | .intermediate => "intermediate".data
  | .advanced => "advanced".data
  | .comprehensive => "comprehensive".data

/-- `.value.title()` of an `ExplanationDepthEnum` member. -/
def ExplanationDepthEnum.titled : ExplanationDepthEnum → List Char
  | .basic => "Basic".data
  | .intermediate => "Intermediate".data
  | .advanced => "Advanced".data
  | .comprehensive => "Comprehensive".data

/-- Member of `ExplanationDepthEnum` with the given string value. -/
def ExplanationDepthEnum.ofValue (s : List Char) : Option ExplanationDepthEnum :=
  if s = "basic".data then some .basic
  else if s = "intermediate".data then some .intermediate
  else if s = "advanced".data then some .advanced
  else if s = "comprehensive".data then some .comprehensive
  else none

structure NoteMakerInput where
  topic : List Char
  note_taking_style : NoteStyleEnum
  subject : List Char
  include_examples : Bool := true
  include_analogies : Bool := false
deriving DecidableEq

structure FlashcardGeneratorInput where
  topic : List Char
  count : Int
  difficulty : FlashcardDifficultyEnum
  subject : List Char
deriving DecidableEq

structure ConceptExplainerInput where
  concept_to_explain : List Char
  desired_depth : ExplanationDepthEnum
  current_topic : List Char
deriving DecidableEq

/-- Key lookup distinguishing an absent key from a present value. -/
def lookupField : List (List Char × JVal) → List Char → Option JVal
  | [], _ => none
  | (k', v) :: rest, k => if k' = k then some v else lookupField rest k

/-- Required string field. -/
def reqStr (fields : List (List Char × JVal)) (k : List Char) : Except (List Char) (List Char) :=
  match lookupField fields k with
  | some (.jstr s) => .ok s
  | some _ => .error (k ++ ": str type expected".data)
  | none => .error (k ++ ": field required".data)

/-- Required integer field. -/
def reqInt (fields : List (List Char × JVal)) (k : List Char) : Except (List Char) Int :=
  match lookupField fields k with
  | some (.jnum n) => .ok n
  | some _ => .error (k ++ ": value is not a valid integer".data)
  | none => .error (k ++ ": field required".data)

/-- Optional boolean field with a schema default. -/
def optBool (fields : List (List Char × JVal)) (k : List Char) (d : Bool) :
    Except (List Char) Bool :=
  match lookupField fields k with
  | some (.jbool b) => .ok b
  | some _ => .error (k ++ ": value could not be parsed to a boolean".data)
  | none => .ok d

/-- The `validate_count` validator of `FlashcardGeneratorInput`:
`if not 1 <= v <= 20: raise ValueError("Count must be between 1 and 20")`. -/
def FlashcardGeneratorInput.validate_count (v : Int) : Except (List Char) Int :=
  if 1 ≤ v ∧ v ≤ 20 then .ok v else .error "Count must be between 1 and 20".data

/-- Validate a raw argument value against `NoteMakerInput`. -/
def validateNoteMakerInput (args : JVal) : Except (List Char) NoteMakerInput :=
  match args with
  | .jobj fields => do
    let topic ← reqStr fields "topic".data
    let style ←
      match lookupField fields "note_taking_style".data with
      | some (.jstr s) =>
        match NoteStyleEnum.ofValue s with
        | some e => Except.ok e
        | none => Except.error "note_taking_style: value is not a valid enumeration member".data
      | some _ => Except.error "note_taking_style: value is not a valid enumeration member".data
      | none => Except.error "note_taking_style: field required".data
    let subject ← reqStr fields "subject".data
    let examples ← optBool fields "include_examples".data true
    let analogies ← optBool fields "include_analogies".data false
    Except.ok { topic := topic, note_taking_style := style, subject := subject,
                include_examples := examples, include_analogies := analogies }
  | _ => .error "argument value is not a mapping".data

/-- Validate a raw argument value against `FlashcardGeneratorInput`,
applying `validate_count`. -/
def validateFlashcardGeneratorInput (args : JVal) : Except (List Char) FlashcardGeneratorInput :=
  match args with
  | .jobj fields => do
    let topic ← reqStr fields "topic".data
    let rawCount ← reqInt fields "count".data
    let count ← FlashcardGeneratorInput.validate_count rawCount
    let difficulty ←
      match lookupField fields "difficulty".data with
      | some (.jstr s) =>
        match FlashcardDifficultyEnum.ofValue s with
        | some e => Except.ok e
        | none => Except.error "difficulty: value is not a valid enumeration member".data
      | some _ => Except.error "difficulty: value is not a valid enumeration member".data
      | none => Except.error "difficulty: field required".data
    let subject ← reqStr fields "subject".data
    Except.ok { topic := topic, count := count, difficulty := difficulty, subject := subject }
  | _ => .error "argument value is not a mapping".data

/-- Validate a raw argument value against `ConceptExplainerInput`. -/
def validateConceptExplainerInput (args : JVal) : Except (List Char) ConceptExplainerInput :=
  match args with
  | .jobj fields => do
    let concept ← reqStr fields "concept_to_explain".data
    let depth ←
      match lookupField fields "desired_depth".data with
      | some (.jstr s) =>
        match ExplanationDepthEnum.ofValue s with
        | some e => Except.ok e
        | none => Except.error "desired_depth: value is not a valid enumeration member".data
      | some _ => Except.error "desired_depth: value is not a valid enumeration member".data
      | none => Except.error "desired_depth: field required".data
    let topic ← reqStr fields "current_topic".data
    Except.ok { concept_to_explain := concept, desired_depth := depth, current_topic := topic }
  | _ => .error "argument value is not a mapping".data

/-- `note_maker_tool`: pure computation on validated arguments. -/
def note_maker_tool (data : NoteMakerInput) : JVal :=
  .jobj [("result".data, .jobj
    [("topic".data, .jstr data.topic),
     ("style".data, .jstr data.note_taking_style.value),
     ("examples".data, .jbool data.include_examples),
     ("analogies".data, .jbool data.include_analogies)])]

/-- One flashcard of `flashcard_generator_tool` (1-based index). -/
def flashcardQA (topic : List Char) (i : Nat) : JVal :=
  .jobj [("q".data, .jstr ("What is point ".data ++ (toString i).data
            ++ " about ".data ++ topic ++ "?".data)),
         ("a".data, .jstr ("Answer ".data ++ (toString i).data ++ ".".data))]

/-- `flashcard_generator_tool`: builds one card per index in
`range(1, count + 1)`. -/
def flashcard_generator_tool (data : FlashcardGeneratorInput) : JVal :=
  .jobj [("result".data, .jobj
    [("flashcards".data,
      .jarr ((List.range data.count.toNat).map (fun i => flashcardQA data.topic (i + 1)))),
     ("difficulty".data, .jstr data.difficulty.value)])]

/-- `concept_explainer_tool`: pure computation on validated arguments. -/
def concept_explainer_tool (data : ConceptExplainerInput) : JVal :=
  .jobj [("result".data, .jobj
    [("concept".data, .jstr data.concept_to_explain),
     ("depth".data, .jstr data.desired_depth.value),
     ("explanation".data, .jstr (data.desired_depth.titled
        ++ " explanation of ".data ++ data.concept_to_explain ++ ".".data))])]

/-- The three registered LangChain tools: the values of `TOOL_MAP`
(`LC_TOOLS` in `tools.py`). -/
inductive ToolFunc where
  | note_maker
  | flashcard_generator
  | concept_explainer
deriving DecidableEq

/-- Message of the `TypeError` raised by `TOOL_MAP.get` on a list key
(the exact Python rendering of the message is abstracted). -/
def typeErrorUnhashableList : List Char := "TypeError: unhashable type: list".data

/-- Message of the `TypeError` raised by `TOOL_MAP.get` on a dict key
(the exact Python rendering of the message is abstracted). -/
def typeErrorUnhashableDict : List Char := "TypeError: unhashable type: dict".data

/-- Whether a value is hashable in Python (lists and mappings are not). -/
def jHashable : JVal → Bool
  | .jarr _ => false
  | .jobj _ => false
  | _ => true

/-- `TOOL_MAP.get(name)` at `orchestrator_graph.py` line 220 — a plain
dict lookup that sits OUTSIDE the executor's `try`: a string key
returns the registered tool (or `None`, modelled `none`, when absent),
any other hashable value is simply not a key and returns `None`, and
an unhashable value — a list or a mapping, both reachable from decoded
model JSON — raises `TypeError`, modelled as `.error`. -/
def TOOL_MAP.get (name : JVal) : Except (List Char) (Option ToolFunc) :=
  match name with
  | .jarr _ => .error typeErrorUnhashableList
  | .jobj _ => .error typeErrorUnhashableDict
  | .jstr s =>
    if s = "note_maker".data then .ok (some .note_maker)
    else if s = "flashcard_generator".data then .ok (some .flashcard_generator)
    else if s = "concept_explainer".data then .ok (some .concept_explainer)
    else .ok none
  | _ => .ok none

/-- `tool_func.invoke(args)`: validation of the raw arguments against
the tool's schema followed by its pure computation — the call the
executor wraps in `try`, a raised validation error modelled by
`Except.error`. -/
def ToolFunc.invoke : ToolFunc → JVal → Except (List Char) JVal
  | .note_maker, args => (validateNoteMakerInput args).map note_maker_tool
  | .flashcard_generator, args =>
    (validateFlashcardGeneratorInput args).map flashcard_generator_tool
  | .concept_explainer, args =>
    (validateConceptExplainerInput args).map concept_explainer_tool

/-! ## Executor and formatter nodes, graph, public entrypoint -/

/-- Python `str(v)` as used in the f-string interpolations of the
executor and formatter; the repr of container values is abstracted
(only scalar values reach an interpolation on pipeline-reachable
states, since arguments interpolated under `TOOL_SUCCESS` passed
schema validation). -/
def jDisplay : JVal → List Char
  | .jnull => "None".data
  | .jbool b => if b then "True".data else "False".data
  | .jnum n => (toString n).data
  | .jstr s => s
  | .jarr _ => "[container]".data
  | .jobj _ => "[container]".data

/-- The fixed no-tool message. -/
def noToolMessage : List Char := "⚠️ Unable to determine a suitable tool.".data

/-- `f"❌ Unknown tool: ‹name›"`. -/
def unknownToolMessage (name : JVal) : List Char :=
  "❌ Unknown tool: ".data ++ jDisplay name

/-- `f"❌ Tool execution failed: ‹e›"`. -/
def toolFailedMessage (e : List Char) : List Char :=
  "❌ Tool execution failed: ".data ++ e

/-- The executor node: dispatch the planned tool through the registry,
converting a missing name, an unknown name and a failed invocation into
the corresponding statuses.  The `TOOL_MAP.get` lookup is performed
outside the `try` block, so the `TypeError` it raises on an unhashable
tool name is NOT caught — it propagates out of the node, modelled by
the `.error` result. -/
def executor_node (state : OrchestratorState) : Except (List Char) OrchestratorState :=
  let name := state.tool_name.getD .jnull
  let args := pyOr (state.tool_args.getD .jnull) (.jobj [])
  if !jTruthy name then
    .ok { state with status := some .NO_TOOL, final_response := some noToolMessage }
  else
    match TOOL_MAP.get name with
    | .error e => .error e
    | .ok none =>
      .ok { state with status := some .UNKNOWN_TOOL,
                       final_response := some (unknownToolMessage name) }
    | .ok (some tool_func) =>
      match tool_func.invoke args with
      | .ok result =>
        .ok { state with tool_output := some result, status := some .TOOL_SUCCESS }
      | .error e =>
        .ok { state with status := some .TOOL_ERROR, error := some e,
                         final_response := some (toolFailedMessage e) }

/-- `args.get(key, default)` in the formatter (`args` is a mapping on
every pipeline-reachable `TOOL_SUCCESS` state, its value having passed
schema validation). -/
def jGetD (v : JVal) (k : List Char) (d : JVal) : JVal :=
  match v with
  | .jobj fields => dictGetD fields k d
  | _ => d

/-- Whether a value is the given string (Python `name == "..."`). -/
def jIsStr (v : JVal) (s : List Char) : Bool :=
  match v with
  | .jstr t => t == s
  | _ => false

/-- The generic fallback message of the formatter. -/
def couldNotCompleteMessage : List Char := "⚠️ Could not complete request.".data

/-- `state.get("final_response") or default`. -/
def strFieldOr (o : Option (List Char)) (d : List Char) : List Char :=
  match o with
  | some s => if s.isEmpty then d else s
  | none => d

/-- The formatter node: compose a tool-specific confirmation on
`TOOL_SUCCESS` (setting status `SUCCESS`), emit the no-tool message on
`NO_TOOL`/`LLM_ERROR`, return the state unchanged on `TOOL_ERROR`, and
otherwise keep a truthy existing response or fall back to the generic
message. -/
def formatter_node (state : OrchestratorState) : OrchestratorState :=
  match state.status with
  | some .TOOL_SUCCESS =>
    let name := state.tool_name.getD .jnull
    let args := state.tool_args.getD (.jobj [])
    let msg :=
      if jIsStr name "note_maker".data then
        "📘 Here are your **".data
          ++ jDisplay (jGetD args "topic".data (.jstr "your topic".data))
          ++ "** notes (structured). Ready to start?".data
      else if jIsStr name "flashcard_generator".data then
        "🃏 Generated ".data ++ jDisplay (jGetD args "count".data (.jnum 5))
          ++ " flashcards on ".data
          ++ jDisplay (jGetD args "topic".data (.jstr "this topic".data)) ++ ".".data
      else if jIsStr name "concept_explainer".data then
        "🧠 Explanation for **".data
          ++ jDisplay (jGetD args "concept_to_explain".data (.jstr "the concept".data))
          ++ "** ready!".data
      else
        "✅ Tool ".data ++ jDisplay name ++ " executed successfully.".data
    { state with final_response := some msg, status := some .SUCCESS }
  | some .NO_TOOL => { state with final_response := some noToolMessage }
  | some .LLM_ERROR => { state with final_response := some noToolMessage }
  | some .TOOL_ERROR => state
  | _ => { state with final_response := some (strFieldOr state.final_response couldNotCompleteMessage) }

/-- The compiled LangGraph: the linear pipeline
planner → executor → formatter.  An exception escaping the executor
propagates out of `graph.invoke` (the formatter never runs on that
turn), modelled by `Except.map`. -/
def orchestrator_graph (agent : AgentOutcome) (state : OrchestratorState) :
    Except (List Char) OrchestratorState :=
  (executor_node (planner_node agent state)).map formatter_node

/-- `initial_state = {"user_message": user_message}`. -/
def initialState (user_message : List Char) : OrchestratorState :=
  { user_message := user_message }

/-- The response mapping built by `run_orchestrator_turn`. -/
structure TurnResult where
  status : Option Status
  final_response : Option (List Char)
  tool_name : Option JVal
  tool_args : Option JVal
  raw_state : OrchestratorState
  llm_raw : Option JVal
  fallback_used : Bool
  error : Option (List Char)

/-- The response mapping built from the final state
(`run_orchestrator_turn` lines 294-303). -/
def mkTurnResult (final : OrchestratorState) : TurnResult :=
  { status := final.status,
    final_response := final.final_response,
    tool_name := final.tool_name,
    tool_args := final.tool_args,
    raw_state := final,
    llm_raw := final.llm_raw,
    fallback_used := final.fallback_used.getD false,
    error := final.error }

/-- Public entrypoint: run the pipeline on a fresh state and echo its
fields (`fallback_used` defaulting to `False`).  An exception escaping
the graph escapes this function too — nothing here catches it —
modelled by the `.error` result. -/
def run_orchestrator_turn (agent : AgentOutcome) (user_message : List Char) :
    Except (List Char) TurnResult :=
  (orchestrator_graph agent (initialState user_message)).map mkTurnResult

/-! ## Observations and concrete scenarios used by the verification -/

/-- Whether the model-backed planning attempt fails for a given agent
outcome: the agent call raises, or its output decodes to no structured
tool call (the `ValueError` path of the planner node). -/
def planningFails (agent : AgentOutcome) : Bool :=
  match agent with
  | .raises _ => true
  | .returns r => (decodeOutput (agentOutput r)).isNone

/-- The `count` argument selected by the rule-based planner for a
message, when its plan carries an argument mapping with a `count` key. -/
def plannedCount (m : List Char) : Option JVal :=
  match (rule_based_planner m).tool_args with
  | some (.jobj fields) => lookupField fields "count".data
  | _ => none

/-- The validated `NoteMakerInput` rendered back as an argument
mapping, in schema field order. -/
def NoteMakerInput.toArgs (d : NoteMakerInput) : JVal :=
  .jobj [("topic".data, .jstr d.topic),
         ("note_taking_style".data, .jstr d.note_taking_style.value),
         ("subject".data, .jstr d.subject),
         ("include_examples".data, .jbool d.include_examples),
         ("include_analogies".data, .jbool d.include_analogies)]

/-- The validated `FlashcardGeneratorInput` rendered back as an
argument mapping. -/
def FlashcardGeneratorInput.toArgs (d : FlashcardGeneratorInput) : JVal :=
  .jobj [("topic".data, .jstr d.topic),
         ("count".data, .jnum d.count),
         ("difficulty".data, .jstr d.difficulty.value),
         ("subject".data, .jstr d.subject)]

/-- The validated `ConceptExplainerInput` rendered back as an argument
mapping. -/
def ConceptExplainerInput.toArgs (d : ConceptExplainerInput) : JVal :=
  .jobj [("concept_to_explain".data, .jstr d.concept_to_explain),
         ("desired_depth".data, .jstr d.desired_depth.value),
         ("current_topic".data, .jstr d.current_topic)]

/-- The validated argument object the named tool's computation function
receives for a raw argument value, rendered as a mapping (`none` when
the name is not registered or validation fails). -/
def validatedArgs (name args : JVal) : Option JVal :=
  match name with
  | .jstr s =>
    if s = "note_maker".data then
      (validateNoteMakerInput args).toOption.map NoteMakerInput.toArgs
    else if s = "flashcard_generator".data then
      (validateFlashcardGeneratorInput args).toOption.map FlashcardGeneratorInput.toArgs
    else if s = "concept_explainer".data then
      (validateConceptExplainerInput args).toOption.map ConceptExplainerInput.toArgs
    else none
  | _ => none

/-- Number of fields of a mapping value (a separating observation for
disequalities of mapping values). -/
def jObjSize : JVal → Nat
  | .jobj fields => fields.length
  | _ => 0

/-- The string carried by an optional tool-name value (a separating
observation for disequalities of tool names). -/
def toolNameStr (o : Option JVal) : List Char :=
  match o with
  | some (.jstr s) => s
  | _ => []

/-- The fenced model output of the decoding scenario:
a ` ```json ` fence around
`\x7b"tool_name":"flashcard_generator","tool_args":\x7b"topic":"DNA",
"count":3,"difficulty":"easy","subject":"Biology"\x7d\x7d`. -/
def fencedJsonC6 : List Char :=
  "```json".data ++ ['{'] ++ "\"tool_name\":\"flashcard_generator\",\"tool_args\":".data
    ++ ['{'] ++ "\"topic\":\"DNA\",\"count\":3,\"difficulty\":\"easy\",\"subject\":\"Biology\"".data
    ++ ['}', '}'] ++ "```".data

/-- Agent outcome returning the fenced text above as its `output`. -/
def agentFenced : AgentOutcome := .returns [("output".data, .jstr fencedJsonC6)]

/-- The argument mapping carried by the fenced text above. -/
def fencedArgs : JVal :=
  .jobj [("topic".data, .jstr "DNA".data), ("count".data, .jnum 3),
         ("difficulty".data, .jstr "easy".data), ("subject".data, .jstr "Biology".data)]

/-- A raw note-maker argument mapping that omits the two optional
boolean fields. -/
def partialNoteArgs : JVal :=
  .jobj [("topic".data, .jstr "Black holes".data),
         ("note_taking_style".data, .jstr "outline".data),
         ("subject".data, .jstr "Physics".data)]

/-- Agent outcome returning a structured note-maker call whose argument
mapping omits the optional fields. -/
def agentPartialNote : AgentOutcome :=
  .returns [("output".data,
    .jobj [("tool_name".data, .jstr "note_maker".data), ("tool_args".data, partialNoteArgs)])]

/-- Agent outcome naming a tool absent from the registry. -/
def agentUnknownTool : AgentOutcome :=
  .returns [("output".data,
    .jobj [("tool_name".data, .jstr "frobnicator".data), ("tool_args".data, .jobj [])])]

/-- The model-output text of the crash scenario,
`\x7b"tool_name": ["x"], "tool_args": \x7b\x7d\x7d`: it decodes to a
truthy but unhashable (list-valued) tool name. -/
def listToolNameJson : List Char :=
  ['{'] ++ "\"tool_name\": [\"x\"], \"tool_args\": ".data ++ ['{', '}', '}']

/-- Agent outcome returning that text as its `output`. -/
def agentListToolName : AgentOutcome :=
  .returns [("output".data, .jstr listToolNameJson)]

/-- The planner-stage state of a turn on an unclassifiable message with
a failing agent. -/
def noToolPlanState : OrchestratorState :=
  planner_node (.raises "simulated timeout".data) (initialState "asdkjasd".data)

/-! ## Sanity checks of the embedding -/

example : jsonLoads "[1, -2, []]".data = some (.jarr [.jnum 1, .jnum (-2), .jarr []]) := rfl
example : jsonLoads " 01 ".data = none := rfl
example : jsonLoads "[1,]".data = none := rfl
example :
    (rule_based_planner "Give me 12 flashcards on mitosis".data).tool_name
      = some (.jstr "flashcard_generator".data) := rfl
example :
    (run_orchestrator_turn (.raises "timeout".data)
      "Can you explain photosynthesis in simple terms?".data).map TurnResult.tool_name
      = .ok (some (.jstr "concept_explainer".data)) := rfl
example :
    (run_orchestrator_turn (.raises "x".data) "asdkjasd".data).map TurnResult.final_response
      = .ok (some noToolMessage) := rfl

/-! ## Helper lemmas -/

theorem append_left_ne_nil {a b : List Char} (h : a ≠ []) : a ++ b ≠ [] := by
  intro hh
  rw [List.append_eq_nil] at hh
  exact h hh.1

theorem strFieldOr_some_ne_nil {m d : List Char} (h : m ≠ []) :
    strFieldOr (some m) d = m := by
  cases m with
  | nil => exact absurd rfl h
  | cons c t => rfl

theorem plannerFallback_status (s : OrchestratorState) (e : List Char) :
    (plannerFallback s e).status = some .FOUND_TOOL ∨
    (plannerFallback s e).status = some .NO_TOOL := by
  cases h : optTruthy (rule_based_planner s.user_message).tool_name <;>
    simp [plannerFallback, h]

theorem planner_node_status (agent : AgentOutcome) (s : OrchestratorState) :
    (planner_node agent s).status = some .FOUND_TOOL ∨
    (planner_node agent s).status = some .NO_TOOL := by
  cases agent with
  | raises e => exact plannerFallback_status _ _
  | returns r =>
    simp only [planner_node]
    cases h : decodeOutput (agentOutput r) with
    | none => simpa [h] using plannerFallback_status _ _
    | some p => simp [h]

theorem executor_node_preserves (s s' : OrchestratorState) (h : executor_node s = .ok s') :
    s'.user_message = s.user_message ∧
    s'.tool_name = s.tool_name ∧
    s'.tool_args = s.tool_args ∧
    s'.fallback_used = s.fallback_used ∧
    s'.llm_raw = s.llm_raw := by
  simp only [executor_node] at h
  split at h
  · rw [Except.ok.injEq] at h
    subst h
    simp
  · split at h
    · exact Except.noConfusion h
    · rw [Except.ok.injEq] at h
      subst h
      simp
    · split at h
      · rw [Except.ok.injEq] at h
        subst h
        simp
      · rw [Except.ok.injEq] at h
        subst h
        simp

theorem executor_node_cases (s : OrchestratorState) :
    (∃ e, executor_node s = .error e) ∨
    ∃ s', executor_node s = .ok s' ∧
      ((s'.status = some .NO_TOOL ∧ s'.final_response = some noToolMessage) ∨
       (∃ n, s'.status = some .UNKNOWN_TOOL ∧
         s'.final_response = some (unknownToolMessage n)) ∨
       (s'.status = some .TOOL_SUCCESS ∧ s'.final_response = s.final_response) ∨
       (∃ e, s'.status = some .TOOL_ERROR ∧
         s'.final_response = some (toolFailedMessage e))) := by
  simp only [executor_node]
  split
  · exact Or.inr ⟨_, rfl, Or.inl (by simp)⟩
  · split
    · exact Or.inl ⟨_, rfl⟩
    · exact Or.inr ⟨_, rfl,
        Or.inr (Or.inl ⟨s.tool_name.getD .jnull, by simp, by simp⟩)⟩
    · split
      · exact Or.inr ⟨_, rfl, Or.inr (Or.inr (Or.inl (by simp)))⟩
      · rename_i e he
        exact Or.inr ⟨_, rfl, Or.inr (Or.inr (Or.inr ⟨e, by simp, by simp⟩))⟩

theorem TOOL_MAP_get_ok_of_hashable (name : JVal) (h : jHashable name = true) :
    ∃ o, TOOL_MAP.get name = .ok o := by
  cases name with
  | jarr xs => exact absurd h (by simp [jHashable])
  | jobj fs => exact absurd h (by simp [jHashable])
  | jstr s =>
    simp only [TOOL_MAP.get]
    split
    · exact ⟨_, rfl⟩
    · split
      · exact ⟨_, rfl⟩
      · split
        · exact ⟨_, rfl⟩
        · exact ⟨_, rfl⟩
  | jnull => exact ⟨_, rfl⟩
  | jbool b => exact ⟨_, rfl⟩
  | jnum n => exact ⟨_, rfl⟩

theorem executor_node_ok_of_hashable (s : OrchestratorState)
    (h : jHashable (s.tool_name.getD .jnull) = true) :
    ∃ s', executor_node s = .ok s' := by
  by_cases ht : jTruthy (s.tool_name.getD .jnull) = true
  · obtain ⟨o, ho⟩ := TOOL_MAP_get_ok_of_hashable (s.tool_name.getD .jnull) h
    cases o with
    | none => simp [executor_node, ht, ho]
    | some f =>
      cases hi : ToolFunc.invoke f (pyOr (s.tool_args.getD .jnull) (.jobj [])) with
      | ok r => simp [executor_node, ht, ho, hi]
      | error e => simp [executor_node, ht, ho, hi]
  · rw [Bool.not_eq_true] at ht
    simp [executor_node, ht]

theorem rule_based_planner_tool_name_shape (m : List Char) :
    (rule_based_planner m).tool_name = none ∨
    ∃ str, (rule_based_planner m).tool_name = some (.jstr str) := by
  cases h1 : containsAny noteKeywords (pyLower m) <;>
    cases h2 : containsAny flashcardKeywords (pyLower m) <;>
      cases h3 : containsAny explainKeywords (pyLower m) <;>
        simp [rule_based_planner, h1, h2, h3]

theorem formatter_node_preserves (s : OrchestratorState) :
    (formatter_node s).user_message = s.user_message ∧
    (formatter_node s).tool_name = s.tool_name ∧
    (formatter_node s).tool_args = s.tool_args ∧
    (formatter_node s).fallback_used = s.fallback_used ∧
    (formatter_node s).tool_output = s.tool_output ∧
    (formatter_node s).llm_raw = s.llm_raw ∧
    (formatter_node s).error = s.error := by
  unfold formatter_node
  split <;> simp

theorem formatter_node_no_tool {s : OrchestratorState} (h : s.status = some .NO_TOOL) :
    formatter_node s = { s with final_response := some noToolMessage } := by
  unfold formatter_node
  rw [h]

theorem formatter_node_tool_error {s : OrchestratorState} (h : s.status = some .TOOL_ERROR) :
    formatter_node s = s := by
  unfold formatter_node
  rw [h]

theorem formatter_node_unknown {s : OrchestratorState} (h : s.status = some .UNKNOWN_TOOL) :
    formatter_node s
      = { s with
          final_response := some (strFieldOr s.final_response couldNotCompleteMessage) } := by
  unfold formatter_node
  rw [h]

theorem formatter_node_success {s : OrchestratorState} (h : s.status = some .TOOL_SUCCESS) :
    ∃ r, (formatter_node s).final_response = some r ∧ r ≠ [] ∧
      (formatter_node s).status = some .SUCCESS := by
  unfold formatter_node
  rw [h]
  refine ⟨_, rfl, ?_, rfl⟩
  split
  · exact append_left_ne_nil (append_left_ne_nil (by decide))
  · split
    · exact append_left_ne_nil (append_left_ne_nil (append_left_ne_nil
        (append_left_ne_nil (by decide))))
    · split
      · exact append_left_ne_nil (append_left_ne_nil (by decide))
      · exact append_left_ne_nil (append_left_ne_nil (by decide))

theorem noToolMessage_ne_nil : noToolMessage ≠ [] := by decide

theorem unknownToolMessage_ne_nil (n : JVal) : unknownToolMessage n ≠ [] :=
  append_left_ne_nil (by decide)

theorem toolFailedMessage_ne_nil (e : List Char) : toolFailedMessage e ≠ [] :=
  append_left_ne_nil (by decide)

theorem graph_terminal (agent : AgentOutcome) (s s2 : OrchestratorState)
    (h : executor_node (planner_node agent s) = .ok s2) :
    ((formatter_node s2).status = some .SUCCESS ∨
     (formatter_node s2).status = some .NO_TOOL ∨
     (formatter_node s2).status = some .UNKNOWN_TOOL ∨
     (formatter_node s2).status = some .TOOL_ERROR) ∧
    ∃ r, (formatter_node s2).final_response = some r ∧ r ≠ [] := by
  rcases executor_node_cases (planner_node agent s) with ⟨e, he⟩ | ⟨s2', hs2', hc⟩
  · rw [he] at h
    exact Except.noConfusion h
  · rw [hs2'] at h
    rw [Except.ok.injEq] at h
    subst h
    rcases hc with ⟨h1, h2⟩ | ⟨n, h1, h2⟩ | ⟨h1, h2⟩ | ⟨e, h1, h2⟩
    · rw [formatter_node_no_tool h1]
      exact ⟨Or.inr (Or.inl (by simpa using h1)),
        noToolMessage, by simp, noToolMessage_ne_nil⟩
    · rw [formatter_node_unknown h1]
      refine ⟨Or.inr (Or.inr (Or.inl (by simpa using h1))), unknownToolMessage n, ?_,
        unknownToolMessage_ne_nil n⟩
      simp [h2, strFieldOr_some_ne_nil (unknownToolMessage_ne_nil n)]
    · rcases formatter_node_success h1 with ⟨r, hr1, hr2, hr3⟩
      exact ⟨Or.inl hr3, r, hr1, hr2⟩
    · rw [formatter_node_tool_error h1]
      exact ⟨Or.inr (Or.inr (Or.inr h1)), toolFailedMessage e, h2, toolFailedMessage_ne_nil e⟩

theorem run_terminal (agent : AgentOutcome) (msg : List Char) (result : TurnResult)
    (h : run_orchestrator_turn agent msg = .ok result) :
    (result.status = some .SUCCESS ∨ result.status = some .NO_TOOL ∨
     result.status = some .UNKNOWN_TOOL ∨ result.status = some .TOOL_ERROR) ∧
    ∃ r, result.final_response = some r ∧ r ≠ [] := by
  cases hx : executor_node (planner_node agent (initialState msg)) with
  | error e =>
    rw [show run_orchestrator_turn agent msg = .error e from by
      simp [run_orchestrator_turn, orchestrator_graph, hx, Except.map]] at h
    exact Except.noConfusion h
  | ok s2 =>
    rw [show run_orchestrator_turn agent msg = .ok (mkTurnResult (formatter_node s2)) from by
      simp [run_orchestrator_turn, orchestrator_graph, hx, Except.map]] at h
    rw [Except.ok.injEq] at h
    subst h
    exact graph_terminal agent (initialState msg) s2 hx

/-! ## Claims -/

/-- C1 (code bug): the spec's propagation policy fails on the code —
`TOOL_MAP.get(name)` at line 220 of `orchestrator_graph.py` sits
outside the executor's `try`, so the truthy but unhashable list-valued
tool name decoded from the model output
`\x7b"tool_name": ["x"], "tool_args": \x7b\x7d\x7d` makes the lookup
raise a `TypeError` that no stage catches: the planner reaches
`FOUND_TOOL` with the list name and the exception escapes
`run_orchestrator_turn` instead of being converted into a status. -/
theorem C1_unhashable_tool_name_escapes :
    (planner_node agentListToolName (initialState "hello".data)).status
      = some .FOUND_TOOL ∧
    (planner_node agentListToolName (initialState "hello".data)).tool_name
      = some (.jarr [.jstr "x".data]) ∧
    run_orchestrator_turn agentListToolName "hello".data
      = .error typeErrorUnhashableList :=
  ⟨by decide, rfl, rfl⟩

/-- Counterexample for C10: a turn on which `run_orchestrator_turn`
returns no `TurnResult` at all — the unguarded registry lookup raises
`TypeError` on the unhashable list-valued tool name decoded from the
model output, and the exception escapes — so the returned status is
not one of the enumerated values. -/
theorem C10_counterexample_unhashable_name_crash :
    run_orchestrator_turn agentListToolName "quiz me".data
      = .error typeErrorUnhashableList := rfl

/-- C10 amended: whenever `run_orchestrator_turn` does return a
`TurnResult` — every turn except those raising through the unguarded
registry lookup on an unhashable planned tool name — its status is one
of `SUCCESS`, `NO_TOOL`, `UNKNOWN_TOOL`, `TOOL_ERROR`, never the
intermediate `FOUND_TOOL` or `TOOL_SUCCESS`, and `final_response` is a
non-empty string. -/
theorem C10_amended_terminal_status_when_returned (agent : AgentOutcome) (msg : List Char)
    (h : ∃ result, run_orchestrator_turn agent msg = .ok result) :
    ∃ result, run_orchestrator_turn agent msg = .ok result ∧
      (result.status = some .SUCCESS ∨ result.status = some .NO_TOOL ∨
       result.status = some .UNKNOWN_TOOL ∨ result.status = some .TOOL_ERROR) ∧
      result.status ≠ some .FOUND_TOOL ∧
      result.status ≠ some .TOOL_SUCCESS ∧
      ∃ r, result.final_response = some r ∧ r ≠ [] := by
  obtain ⟨result, hres⟩ := h
  obtain ⟨hs, hr⟩ := run_terminal agent msg result hres
  refine ⟨result, hres, hs, ?_, ?_, hr⟩
  · rcases hs with h | h | h | h <;> rw [h] <;> decide
  · rcases hs with h | h | h | h <;> rw [h] <;> decide

/-- Witness for the amended C10 at a concrete returning turn. -/
theorem C10_amended_terminal_status_when_returned_witness :
    ∃ result, run_orchestrator_turn (.raises "x".data) "asdkjasd".data = .ok result ∧
      (result.status = some .SUCCESS ∨ result.status = some .NO_TOOL ∨
       result.status = some .UNKNOWN_TOOL ∨ result.status = some .TOOL_ERROR) ∧
      result.status ≠ some .FOUND_TOOL ∧
      result.status ≠ some .TOOL_SUCCESS ∧
      ∃ r, result.final_response = some r ∧ r ≠ [] :=
  C10_amended_terminal_status_when_returned (.raises "x".data) "asdkjasd".data ⟨_, rfl⟩

theorem planner_node_fallback_fields (agent : AgentOutcome) (s : OrchestratorState)
    (h : planningFails agent = true) :
    (planner_node agent s).fallback_used = some true ∧
    (planner_node agent s).tool_name = (rule_based_planner s.user_message).tool_name ∧
    (planner_node agent s).tool_args = (rule_based_planner s.user_message).tool_args := by
  cases agent with
  | raises e => simp [planner_node, plannerFallback]
  | returns r =>
    have hd : decodeOutput (agentOutput r) = none := by
      simpa [planningFails, Option.isNone_iff_eq_none] using h
    simp [planner_node, hd, plannerFallback]

theorem planner_node_fallback_hashable (agent : AgentOutcome) (s : OrchestratorState)
    (h : planningFails agent = true) :
    jHashable ((planner_node agent s).tool_name.getD .jnull) = true := by
  obtain ⟨-, hn, -⟩ := planner_node_fallback_fields agent s h
  rw [hn]
  rcases rule_based_planner_tool_name_shape s.user_message with h0 | ⟨str, h0⟩ <;>
    rw [h0] <;> rfl

/-- C2: whenever the model-backed planning attempt raises or yields no
structured tool call, the turn returns a `TurnResult` with
`fallback_used = true` whose selected `(tool_name, tool_args)` pair is
exactly the plan of `rule_based_planner` on the same message. -/
theorem C2_fallback_matches_heuristic (agent : AgentOutcome) (msg : List Char)
    (h : planningFails agent = true) :
    ∃ result, run_orchestrator_turn agent msg = .ok result ∧
      result.fallback_used = true ∧
      result.tool_name = (rule_based_planner msg).tool_name ∧
      result.tool_args = (rule_based_planner msg).tool_args := by
  obtain ⟨hf, hn, ha⟩ := planner_node_fallback_fields agent (initialState msg) h
  obtain ⟨s2, hs2⟩ := executor_node_ok_of_hashable (planner_node agent (initialState msg))
    (planner_node_fallback_hashable agent (initialState msg) h)
  obtain ⟨-, en, ea, ef, -⟩ := executor_node_preserves _ _ hs2
  obtain ⟨-, fn, fa, ff, -, -, -⟩ := formatter_node_preserves s2
  refine ⟨mkTurnResult (formatter_node s2), ?_, ?_, ?_, ?_⟩
  · simp [run_orchestrator_turn, orchestrator_graph, hs2, Except.map]
  · show (formatter_node s2).fallback_used.getD false = true
    rw [ff, ef, hf]
    rfl
  · show (formatter_node s2).tool_name = (rule_based_planner msg).tool_name
    rw [fn, en, hn]
    rfl
  · show (formatter_node s2).tool_args = (rule_based_planner msg).tool_args
    rw [fa, ea, ha]
    rfl

/-- Witness for C2: a concrete turn with a raising agent on a
quiz-keyword message. -/
theorem C2_fallback_matches_heuristic_witness :
    ∃ result, run_orchestrator_turn (.raises "simulated timeout".data)
        "Quiz me on cells".data = .ok result ∧
      result.fallback_used = true ∧
      result.tool_name = (rule_based_planner "Quiz me on cells".data).tool_name ∧
      result.tool_args = (rule_based_planner "Quiz me on cells".data).tool_args :=
  C2_fallback_matches_heuristic (.raises "simulated timeout".data) "Quiz me on cells".data rfl

/-- C3: the heuristic planner is a pure total function (equal inputs
give equal plans), its keyword classification depends only on the
lower-cased message, and rule priority is fixed note rule first,
flashcard rule second, explain rule third: any message containing both
a note keyword and a flashcard/quiz keyword selects `note_maker`, and
any message containing flashcard and explain keywords but no note
keyword selects `flashcard_generator`. -/
theorem C3_heuristic_pure_case_insensitive_priority :
    (∀ m₁ m₂ : List Char, m₁ = m₂ → rule_based_planner m₁ = rule_based_planner m₂) ∧
    (∀ m₁ m₂ : List Char, pyLower m₁ = pyLower m₂ →
      (rule_based_planner m₁).tool_name = (rule_based_planner m₂).tool_name) ∧
    (∀ m : List Char, containsAny noteKeywords (pyLower m) = true →
      containsAny flashcardKeywords (pyLower m) = true →
      (rule_based_planner m).tool_name = some (.jstr "note_maker".data)) ∧
    (∀ m : List Char, containsAny noteKeywords (pyLower m) = false →
      containsAny flashcardKeywords (pyLower m) = true →
      containsAny explainKeywords (pyLower m) = true →
      (rule_based_planner m).tool_name = some (.jstr "flashcard_generator".data)) := by
  refine ⟨fun m₁ m₂ h => by rw [h], ?_, ?_, ?_⟩
  · intro m₁ m₂ h
    cases h1 : containsAny noteKeywords (pyLower m₂) <;>
      cases h2 : containsAny flashcardKeywords (pyLower m₂) <;>
        cases h3 : containsAny explainKeywords (pyLower m₂) <;>
          simp [rule_based_planner, h, h1, h2, h3]
  · intro m h1 h2
    simp [rule_based_planner, h1]
  · intro m h1 h2 h3
    simp [rule_based_planner, h1, h2]

/-- Witness for C3: concrete purity, case-insensitivity and priority
instances. -/
theorem C3_heuristic_pure_case_insensitive_priority_witness :
    rule_based_planner "Summarize osmosis".data = rule_based_planner "Summarize osmosis".data ∧
    (rule_based_planner "NOTE the QUIZ".data).tool_name
      = (rule_based_planner "note the quiz".data).tool_name ∧
    (rule_based_planner "note me a quiz".data).tool_name = some (.jstr "note_maker".data) ∧
    (rule_based_planner "practice explaining osmosis".data).tool_name
      = some (.jstr "flashcard_generator".data) :=
  ⟨C3_heuristic_pure_case_insensitive_priority.1 "Summarize osmosis".data
      "Summarize osmosis".data rfl,
   C3_heuristic_pure_case_insensitive_priority.2.1 "NOTE the QUIZ".data
      "note the quiz".data (by decide),
   C3_heuristic_pure_case_insensitive_priority.2.2.1 "note me a quiz".data
      (by decide) (by decide),
   C3_heuristic_pure_case_insensitive_priority.2.2.2 "practice explaining osmosis".data
      (by decide) (by decide) (by decide)⟩

/-- C4: for every message the heuristic planner classifies to the
flashcard tool, the planned `count` is the leftmost `\b(\d\x7b1,2\x7d)\b`
match of the lower-cased message clamped into `[1, 20]`, defaulting to
`5` when the regex does not match; in particular the three spec
examples hold. -/
theorem C4_flashcard_count_extraction :
    (∀ m : List Char,
      (rule_based_planner m).tool_name = some (.jstr "flashcard_generator".data) →
      plannedCount m
        = some (.jnum (max 1 (min (((firstTwoDigitInt (pyLower m)).getD 5 : Nat) : Int) 20)))) ∧
    plannedCount "Give me 12 flashcards on mitosis".data = some (.jnum 12) ∧
    plannedCount "Give me 99 flashcards".data = some (.jnum 20) ∧
    plannedCount "Give me flashcards".data = some (.jnum 5) := by
  refine ⟨?_, rfl, rfl, rfl⟩
  intro m hm
  cases h1 : containsAny noteKeywords (pyLower m) with
  | true =>
    have hb : (rule_based_planner m).tool_name = some (.jstr "note_maker".data) := by
      simp [rule_based_planner, h1]
    rw [hb] at hm
    exact absurd (congrArg toolNameStr hm) (by decide)
  | false =>
    cases h2 : containsAny flashcardKeywords (pyLower m) with
    | true =>
      have e1 : ("topic".data : List Char) ≠ "count".data := by decide
      simp [plannedCount, rule_based_planner, h1, h2, lookupField, e1]
    | false =>
      cases h3 : containsAny explainKeywords (pyLower m) with
      | true =>
        have hb : (rule_based_planner m).tool_name
            = some (.jstr "concept_explainer".data) := by
          simp [rule_based_planner, h1, h2, h3]
        rw [hb] at hm
        exact absurd (congrArg toolNameStr hm) (by decide)
      | false =>
        have hb : (rule_based_planner m).tool_name = none := by
          simp [rule_based_planner, h1, h2, h3]
        rw [hb] at hm
        exact absurd hm (by simp)

/-- Witness for C4: the universal count rule applied to the first spec
example. -/
theorem C4_flashcard_count_extraction_witness :
    plannedCount "Give me 12 flashcards on mitosis".data
      = some (.jnum (max 1 (min
          (((firstTwoDigitInt (pyLower "Give me 12 flashcards on mitosis".data)).getD 5 : Nat)
            : Int) 20))) :=
  C4_flashcard_count_extraction.1 "Give me 12 flashcards on mitosis".data rfl

/-- C5: schema validation of the flashcard tool fails for every raw
argument mapping whose `count` value lies outside `[1, 20]`, whatever
the other fields hold (so independently of the planner's clamp); in
particular `count = 0` and `count = 21` are rejected on otherwise valid
argument mappings. -/
theorem C5_validator_rejects_out_of_range_count :
    (∀ (fields : List (List Char × JVal)) (v : Int),
      lookupField fields "count".data = some (.jnum v) → (v < 1 ∨ 20 < v) →
      ∃ e, validateFlashcardGeneratorInput (.jobj fields) = .error e) ∧
    (∃ e, validateFlashcardGeneratorInput (.jobj
      [("topic".data, .jstr "DNA".data), ("count".data, .jnum 0),
       ("difficulty".data, .jstr "easy".data), ("subject".data, .jstr "Biology".data)])
      = .error e) ∧
    (∃ e, validateFlashcardGeneratorInput (.jobj
      [("topic".data, .jstr "DNA".data), ("count".data, .jnum 21),
       ("difficulty".data, .jstr "easy".data), ("subject".data, .jstr "Biology".data)])
      = .error e) := by
  refine ⟨?_, ⟨_, rfl⟩, ⟨_, rfl⟩⟩
  intro fields v hl hv
  cases ht : reqStr fields "topic".data with
  | error e => exact ⟨e, by simp [validateFlashcardGeneratorInput, ht, Except.instMonad, Except.bind]⟩
  | ok topic =>
    have hi : reqInt fields "count".data = .ok v := by simp [reqInt, hl]
    have hc : FlashcardGeneratorInput.validate_count v
        = .error "Count must be between 1 and 20".data := by
      unfold FlashcardGeneratorInput.validate_count
      rw [if_neg (by omega)]
    exact ⟨"Count must be between 1 and 20".data,
      by simp [validateFlashcardGeneratorInput, ht, hi, hc, Except.instMonad, Except.bind]⟩

/-- Witness for C5: the universal rejection rule applied to a mapping
holding only an out-of-range `count`. -/
theorem C5_validator_rejects_out_of_range_count_witness :
    ∃ e, validateFlashcardGeneratorInput (.jobj [("count".data, .jnum 0)]) = .error e :=
  C5_validator_rejects_out_of_range_count.1 [("count".data, .jnum 0)] 0 rfl
    (Or.inl (by decide))

/-- C6: when the agent output is the fenced
`\x7b"tool_name":"flashcard_generator","tool_args":\x7b"topic":"DNA",
"count":3,"difficulty":"easy","subject":"Biology"\x7d\x7d` block, the
planner strips the fence, parses the JSON and extracts the
`(tool_name, tool_args)` pair, and the turn (for every user message)
ends with status `SUCCESS` and `fallback_used = false`. -/
theorem C6_fenced_json_decoded (msg : List Char) :
    decodeOutput (.jstr fencedJsonC6)
      = some (.jstr "flashcard_generator".data, fencedArgs) ∧
    ∃ result, run_orchestrator_turn agentFenced msg = .ok result ∧
      result.status = some .SUCCESS ∧
      result.fallback_used = false ∧
      result.tool_name = some (.jstr "flashcard_generator".data) ∧
      result.tool_args = some fencedArgs :=
  ⟨rfl, _, rfl, rfl, rfl, rfl, rfl⟩

theorem rule_based_planner_tool_name_none {m : List Char}
    (h : optTruthy (rule_based_planner m).tool_name = false) :
    (rule_based_planner m).tool_name = none := by
  cases h1 : containsAny noteKeywords (pyLower m) with
  | true =>
    rw [show (rule_based_planner m).tool_name = some (.jstr "note_maker".data) from by
      simp [rule_based_planner, h1]] at h
    exact absurd h (by decide)
  | false =>
    cases h2 : containsAny flashcardKeywords (pyLower m) with
    | true =>
      rw [show (rule_based_planner m).tool_name
          = some (.jstr "flashcard_generator".data) from by
        simp [rule_based_planner, h1, h2]] at h
      exact absurd h (by decide)
    | false =>
      cases h3 : containsAny explainKeywords (pyLower m) with
      | true =>
        rw [show (rule_based_planner m).tool_name
            = some (.jstr "concept_explainer".data) from by
          simp [rule_based_planner, h1, h2, h3]] at h
        exact absurd h (by decide)
      | false => simp [rule_based_planner, h1, h2, h3]

theorem planner_node_no_tool_name (agent : AgentOutcome) (s : OrchestratorState)
    (h : (planner_node agent s).status = some .NO_TOOL) :
    (planner_node agent s).tool_name = none := by
  cases agent with
  | raises e =>
    simp only [planner_node, plannerFallback] at h ⊢
    cases hc : optTruthy (rule_based_planner s.user_message).tool_name with
    | true => rw [hc] at h; simp at h
    | false => exact rule_based_planner_tool_name_none hc
  | returns r =>
    cases hd : decodeOutput (agentOutput r) with
    | some p =>
      rw [show (planner_node (.returns r) s).status = some .FOUND_TOOL from by
        simp [planner_node, hd]] at h
      simp at h
    | none =>
      simp only [planner_node, hd, plannerFallback] at h ⊢
      cases hc : optTruthy (rule_based_planner s.user_message).tool_name with
      | true => rw [hc] at h; simp at h
      | false => exact rule_based_planner_tool_name_none hc

/-- Counterexample for C7: a turn whose plan stage ends with `NO_TOOL`
for which the execute stage does not pass the state on unchanged — it
writes the no-tool message into `final_response`. -/
theorem C7_counterexample_execute_mutates_on_no_tool :
    noToolPlanState.status = some .NO_TOOL ∧
    executor_node noToolPlanState ≠ .ok noToolPlanState := by
  refine ⟨by decide, fun h => ?_⟩
  have hobs := congrArg (fun r : Except (List Char) OrchestratorState =>
    match r with
    | .ok st => st.final_response
    | .error _ => none) h
  exact absurd hobs (by decide)

/-- C7 amended: the execute stage is invoked on every turn; when the
plan stage ended with `NO_TOOL` it performs no tool lookup or
execution, passing the state to the format stage with only
`final_response` set to the fixed no-tool message (status remaining
`NO_TOOL`, every other field unchanged). -/
theorem C7_amended_execute_on_no_tool (agent : AgentOutcome) (msg : List Char)
    (h : (planner_node agent (initialState msg)).status = some .NO_TOOL) :
    executor_node (planner_node agent (initialState msg))
      = .ok { planner_node agent (initialState msg) with
              status := some .NO_TOOL, final_response := some noToolMessage } := by
  have hn := planner_node_no_tool_name agent (initialState msg) h
  simp [executor_node, hn, jTruthy]

/-- Witness for the amended C7 at a concrete failing agent and
unclassifiable message. -/
theorem C7_amended_execute_on_no_tool_witness :
    executor_node (planner_node (.raises "simulated timeout".data)
        (initialState "asdkjasd".data))
      = .ok { planner_node (.raises "simulated timeout".data)
                (initialState "asdkjasd".data) with
              status := some .NO_TOOL, final_response := some noToolMessage } :=
  C7_amended_execute_on_no_tool (.raises "simulated timeout".data) "asdkjasd".data (by decide)

/-- C8: on every turn entering the format stage with status
`TOOL_ERROR` or `UNKNOWN_TOOL`, the format stage leaves
`final_response` at exactly the error string the execute stage set,
and that value is what the turn returns. -/
theorem C8_error_responses_untouched (agent : AgentOutcome) (msg : List Char)
    (h : ∃ s2, executor_node (planner_node agent (initialState msg)) = .ok s2 ∧
      (s2.status = some .TOOL_ERROR ∨ s2.status = some .UNKNOWN_TOOL)) :
    ∃ s2, executor_node (planner_node agent (initialState msg)) = .ok s2 ∧
      (formatter_node s2).final_response = s2.final_response ∧
      ∃ result, run_orchestrator_turn agent msg = .ok result ∧
        result.final_response = s2.final_response := by
  obtain ⟨s2, hs2, hst⟩ := h
  have key : (formatter_node s2).final_response = s2.final_response := by
    rcases hst with h' | h'
    · rw [formatter_node_tool_error h']
    · rcases executor_node_cases (planner_node agent (initialState msg)) with
        ⟨e, he⟩ | ⟨s2', hs2', hc⟩
      · rw [he] at hs2
        exact Except.noConfusion hs2
      · rw [hs2'] at hs2
        rw [Except.ok.injEq] at hs2
        subst hs2
        rcases hc with ⟨h1, h2⟩ | ⟨n, h1, h2⟩ | ⟨h1, h2⟩ | ⟨e, h1, h2⟩
        · rw [h1] at h'; simp at h'
        · rw [formatter_node_unknown h']
          simp [h2, strFieldOr_some_ne_nil (unknownToolMessage_ne_nil n)]
        · rw [h1] at h'; simp at h'
        · rw [h1] at h'; simp at h'
  refine ⟨s2, hs2, key, mkTurnResult (formatter_node s2), ?_, ?_⟩
  · simp [run_orchestrator_turn, orchestrator_graph, hs2, Except.map]
  · show (formatter_node s2).final_response = s2.final_response
    exact key

/-- Witness for C8: a concrete turn whose planner names an unregistered
tool, reaching `UNKNOWN_TOOL`. -/
theorem C8_error_responses_untouched_witness :
    ∃ s2, executor_node (planner_node agentUnknownTool
        (initialState "do something".data)) = .ok s2 ∧
      (formatter_node s2).final_response = s2.final_response ∧
      ∃ result, run_orchestrator_turn agentUnknownTool "do something".data = .ok result ∧
        result.final_response = s2.final_response :=
  C8_error_responses_untouched agentUnknownTool "do something".data
    ⟨_, rfl, Or.inr (by decide)⟩

theorem executor_node_success_inversion (s s' : OrchestratorState)
    (h : executor_node s = .ok s') (hs : s'.status = some .TOOL_SUCCESS) :
    ∃ n tool_func out, s.tool_name = some n ∧
      TOOL_MAP.get n = .ok (some tool_func) ∧
      ToolFunc.invoke tool_func (pyOr (s.tool_args.getD .jnull) (.jobj [])) = .ok out ∧
      s'.tool_output = some out := by
  by_cases hn : jTruthy (s.tool_name.getD .jnull) = true
  · cases hg : TOOL_MAP.get (s.tool_name.getD .jnull) with
    | error e => simp [executor_node, hn, hg] at h
    | ok o =>
      cases o with
      | none =>
        simp [executor_node, hn, hg] at h
        rw [← h] at hs
        simp at hs
      | some f =>
        cases hi : ToolFunc.invoke f (pyOr (s.tool_args.getD .jnull) (.jobj [])) with
        | ok out =>
          simp [executor_node, hn, hg, hi] at h
          cases hsn : s.tool_name with
          | none => rw [hsn] at hn; exact absurd hn (by decide)
          | some n =>
            rw [hsn] at hg
            refine ⟨n, f, out, rfl, by simpa using hg, hi, ?_⟩
            rw [← h]
        | error e =>
          simp [executor_node, hn, hg, hi] at h
          rw [← h] at hs
          simp at hs
  · rw [Bool.not_eq_true] at hn
    simp [executor_node, hn] at h
    rw [← h] at hs
    simp at hs

/-- Counterexample for C9: a successfully executed turn whose echoed
`tool_args` differ from the validated arguments the computation
function received — validation filled in the two omitted boolean
schema defaults, which the echo does not reflect. -/
theorem C9_counterexample_echo_differs_from_validated :
    ∃ result, run_orchestrator_turn agentPartialNote "make notes".data = .ok result ∧
      result.status = some .SUCCESS ∧
      result.tool_args = some partialNoteArgs ∧
      validatedArgs (.jstr "note_maker".data) partialNoteArgs
        = some (NoteMakerInput.toArgs
            { topic := "Black holes".data, note_taking_style := .outline,
              subject := "Physics".data }) ∧
      NoteMakerInput.toArgs
          { topic := "Black holes".data, note_taking_style := .outline,
            subject := "Physics".data } ≠ partialNoteArgs := by
  refine ⟨_, rfl, by decide, rfl, rfl, fun h => ?_⟩
  exact absurd (congrArg jObjSize h) (by decide)

/-- C9 amended: on every turn whose tool executes successfully, the
`tool_args` echoed in the final `TurnResult` are exactly the raw
argument mapping the planner selected — nothing mutates them between
planning and the returned result — and the recorded `tool_output` is
the tool's computation applied to the validated form of that very
mapping; the validated form itself may extend the echoed mapping with
schema defaults for omitted optional fields. -/
theorem C9_amended_args_echoed_unchanged (agent : AgentOutcome) (msg : List Char)
    (h : ∃ result, run_orchestrator_turn agent msg = .ok result ∧
      result.status = some .SUCCESS) :
    ∃ result, run_orchestrator_turn agent msg = .ok result ∧
      result.tool_args = (planner_node agent (initialState msg)).tool_args ∧
      ∃ name tool_func out,
        result.tool_name = some name ∧
        TOOL_MAP.get name = .ok (some tool_func) ∧
        ToolFunc.invoke tool_func
          (pyOr (((planner_node agent (initialState msg)).tool_args).getD .jnull)
            (.jobj []))
          = .ok out ∧
        result.raw_state.tool_output = some out := by
  obtain ⟨result0, hres0, hstat0⟩ := h
  cases hx : executor_node (planner_node agent (initialState msg)) with
  | error e =>
    rw [show run_orchestrator_turn agent msg = .error e from by
      simp [run_orchestrator_turn, orchestrator_graph, hx, Except.map]] at hres0
    exact Except.noConfusion hres0
  | ok s2 =>
    have hres2 : run_orchestrator_turn agent msg
        = .ok (mkTurnResult (formatter_node s2)) := by
      simp [run_orchestrator_turn, orchestrator_graph, hx, Except.map]
    have hstat2 : (formatter_node s2).status = some .SUCCESS := by
      rw [hres2] at hres0
      rw [Except.ok.injEq] at hres0
      rw [← hres0] at hstat0
      exact hstat0
    have hts : s2.status = some .TOOL_SUCCESS := by
      rcases executor_node_cases (planner_node agent (initialState msg)) with
        ⟨e, he⟩ | ⟨s2', hs2', hc⟩
      · rw [he] at hx
        exact Except.noConfusion hx
      · rw [hx] at hs2'
        rw [Except.ok.injEq] at hs2'
        subst hs2'
        rcases hc with ⟨h1, h2⟩ | ⟨n, h1, h2⟩ | ⟨h1, h2⟩ | ⟨e, h1, h2⟩
        · rw [formatter_node_no_tool h1] at hstat2
          simp at hstat2
          rw [h1] at hstat2
          simp at hstat2
        · rw [formatter_node_unknown h1] at hstat2
          simp at hstat2
          rw [h1] at hstat2
          simp at hstat2
        · exact h1
        · rw [formatter_node_tool_error h1] at hstat2
          rw [h1] at hstat2
          simp at hstat2
    obtain ⟨n, f, out, hsn, hg, hi, hout⟩ :=
      executor_node_success_inversion (planner_node agent (initialState msg)) s2 hx hts
    obtain ⟨-, en, ea, -, -⟩ := executor_node_preserves _ _ hx
    obtain ⟨-, fn, fa, -, fo, -, -⟩ := formatter_node_preserves s2
    refine ⟨mkTurnResult (formatter_node s2), hres2, ?_, n, f, out, ?_, hg, hi, ?_⟩
    · show (formatter_node s2).tool_args = (planner_node agent (initialState msg)).tool_args
      rw [fa, ea]
    · show (formatter_node s2).tool_name = some n
      rw [fn, en, hsn]
    · show (formatter_node s2).tool_output = some out
      rw [fo, hout]

/-- Witness for the amended C9 at a concrete successful fallback turn. -/
theorem C9_amended_args_echoed_unchanged_witness :
    ∃ result, run_orchestrator_turn (.raises "llm down".data)
        "Make study notes on mitosis".data = .ok result ∧
      result.tool_args = (planner_node (.raises "llm down".data)
          (initialState "Make study notes on mitosis".data)).tool_args ∧
      ∃ name tool_func out,
        result.tool_name = some name ∧
        TOOL_MAP.get name = .ok (some tool_func) ∧
        ToolFunc.invoke tool_func
          (pyOr (((planner_node (.raises "llm down".data)
              (initialState "Make study notes on mitosis".data)).tool_args).getD .jnull)
            (.jobj []))
          = .ok out ∧
        result.raw_state.tool_output = some out :=
  C9_amended_args_echoed_unchanged (.raises "llm down".data)
    "Make study notes on mitosis".data ⟨_, rfl, by decide⟩
